import Mathlib

/-!
Shallow embedding of `api_tester.py` (whateverAPI's API endpoint testing
tool) and verification of its specification claims.

The script defines a class `APITester` holding mutable counters, issues one
HTTP GET per loop iteration, classifies the outcome, records a latency
sample, prints statistics every 10 requests and once at shutdown.

Modelling decisions, each tied to a line of the source:
* Wall-clock readings (`time.time()`) and per-request transport outcomes are
  environment inputs: each loop iteration consumes one `Tick` carrying the
  transport outcome, the elapsed durations that the two `time.time()`
  subtractions would produce (line 34 inside the `with` block and line 53
  inside the `except` block), and the `time.time()` value a statistics print
  during that iteration would read (line 71).  Durations and timestamps are
  rationals, standing for Python floats; no claim depends on rounding.
* `await response.json()` (line 40) raises when the 200 body is not parseable
  JSON (aiohttp raises `ContentTypeError` / `JSONDecodeError`); the broad
  `except Exception` at line 51 catches it.  A body therefore carries its raw
  text and an optional parsed form; `none` means `response.json()` raises.
* `await response.text()` (line 43) is modelled as never raising.
* Python truthiness at line 96: `if self.max_requests and ...` — the break
  test is skipped both when `max_requests` is `None` and when it is `0`.
* `self.request_count / elapsed` at line 72 raises `ZeroDivisionError` in
  Python when `elapsed == 0.0`; `time.time() - self.start_time` at line 71
  raises `TypeError` when `start_time` is still `None`.  `print_stats` hence
  returns an explicit outcome; the state component it returns rebuilds the
  record field by field, reflecting that the method only reads fields.
* Console output is irrelevant to the claims and is not modelled beyond
  which statistics blocks are emitted.
-/

/-- Raw text of an HTTP response body together with its parsed JSON form;
`parsedJson = none` means `response.json()` raises on this body. -/
structure HttpBody where
  raw : String
  parsedJson : Option String
  deriving Repr, DecidableEq

/-- Outcome of one `session.get`: either the call raises before a response is
available (connection refused, timeout, ...) with `str(e) = msg`, or a
response with a status code and a body is obtained. -/
inductive TransportOutcome where
  | raised (msg : String)
  | response (status : Nat) (body : HttpBody)
  deriving Repr, DecidableEq

/-- Environment input for one loop iteration: the transport outcome and the
values the wall-clock subtractions of that iteration would yield.
`elapsed` is `time.time() - start_time` computed at line 34, `elapsedExn`
the one computed at line 53 in the `except` handler, and `statNow` the
`time.time()` read at line 71 if `print_stats` runs this iteration. -/
structure Tick where
  outcome : TransportOutcome
  elapsed : ℚ
  elapsedExn : ℚ
  statNow : ℚ
  deriving Repr, DecidableEq

/-- The fields of a Python `APITester` instance (lines 20 to 27). -/
structure APITester where
  base_url : String
  interval : ℚ
  max_requests : Option Nat
  request_count : Nat
  success_count : Nat
  error_count : Nat
  response_times : List ℚ
  start_time : Option ℚ
  deriving Repr, DecidableEq

/-- Python `s.rstrip(c)` for a single character: drop trailing occurrences. -/
def rstripChar (s : String) (c : Char) : String :=
  String.mk ((s.data.reverse.dropWhile (fun d => d == c)).reverse)

/-- Constructor semantics of `APITester.__init__` (lines 12 to 27). -/
def APITester.init (base_url : String) (interval : ℚ)
    (max_requests : Option Nat) : APITester :=
  { base_url := rstripChar base_url '/'
    interval := interval
    max_requests := max_requests
    request_count := 0
    success_count := 0
    error_count := 0
    response_times := []
    start_time := none }

/-- Status field of the returned result dict: a numeric HTTP status (line 47)
or the string marker written at line 57. -/
inductive ResultStatus where
  | code (n : Nat)
  | errorMarker
  deriving Repr, DecidableEq

/-- Payload of the result dict: the parsed JSON body (success), the raw text
body (non-200), or the error description `str(e)` under the `error` key. -/
inductive ResultBody where
  | parsed (j : String)
  | rawText (t : String)
  | errorDescr (s : String)
  deriving Repr, DecidableEq

/-- The dict returned by `make_request` (timestamp omitted: `datetime.now()`
is never read back by the program). -/
structure RequestResult where
  status : ResultStatus
  elapsed : ℚ
  body : ResultBody
  deriving Repr, DecidableEq

/-- Message `str(e)` of the exception raised by `response.json()` on an
unparseable body, as a function of the raw text. -/
def jsonDecodeError (raw : String) : String :=
  "JSONDecodeError: " ++ raw

/-- Semantics of `APITester.make_request` (lines 29 to 60), one request.
Statement order follows the source: on a response, the first duration sample
is appended (line 35) before the status dispatch; on a 200 status the
success counter is incremented (line 39) before `response.json()` is
awaited (line 40), so a parse failure lands in the `except` block at line 51
with the success increment and the first append already performed, and the
handler then increments the error counter and appends a second sample. -/
def make_request (st : APITester) (t : Tick) : APITester × RequestResult :=
  match t.outcome with
  | .raised msg =>
      ({ st with
          error_count := st.error_count + 1
          response_times := st.response_times ++ [t.elapsedExn] },
        { status := .errorMarker, elapsed := t.elapsedExn,
          body := .errorDescr msg })
  | .response status body =>
      let st1 := { st with response_times := st.response_times ++ [t.elapsed] }
      if status == 200 then
        let st2 := { st1 with success_count := st1.success_count + 1 }
        match body.parsedJson with
        | some j =>
            (st2, { status := .code status, elapsed := t.elapsed,
                    body := .parsed j })
        | none =>
            ({ st2 with
                error_count := st2.error_count + 1
                response_times := st2.response_times ++ [t.elapsedExn] },
              { status := .errorMarker, elapsed := t.elapsedExn,
                body := .errorDescr (jsonDecodeError body.raw) })
      else
        ({ st1 with error_count := st1.error_count + 1 },
          { status := .code status, elapsed := t.elapsed,
            body := .rawText body.raw })

/-- Observable outcome of one `print_stats` call: early return on the empty
guard, a statistics block written to stdout, or an uncaught exception
(`TypeError` from `time.time() - None`, `ZeroDivisionError` from
`request_count / 0.0`). -/
inductive StatsOutcome where
  | noop
  | emitted (total success errors : Nat) (avg mx mn rps : ℚ)
  | typeErrorNone
  | zeroDivisionError
  deriving Repr, DecidableEq

/-- Whether a `print_stats` call wrote a statistics block. -/
def StatsOutcome.isEmitted : StatsOutcome → Bool
  | .emitted _ _ _ _ _ _ _ => true
  | _ => false

/-- Semantics of `APITester.print_stats` (lines 62 to 82).  Returns the
instance state as the method leaves it together with the observable outcome.
The method only reads fields, so the returned state rebuilds the record from
the fields read.  Guard first (line 64); then mean, max and min over the
samples (Python `max`/`min` of a nonempty list are left folds over its
head and tail); then `elapsed = time.time() - self.start_time` (line 71),
raising `TypeError` if `start_time` is `None`, and
`request_count / elapsed` (line 72), raising `ZeroDivisionError` if
`elapsed` is zero. -/
def print_stats (st : APITester) (now : ℚ) : APITester × StatsOutcome :=
  let keep : APITester :=
    { base_url := st.base_url
      interval := st.interval
      max_requests := st.max_requests
      request_count := st.request_count
      success_count := st.success_count
      error_count := st.error_count
      response_times := st.response_times
      start_time := st.start_time }
  match st.response_times with
  | [] => (keep, .noop)
  | x :: xs =>
      let avg := (x :: xs).sum / ((x :: xs).length : ℚ)
      let mx := xs.foldl max x
      let mn := xs.foldl min x
      match st.start_time with
      | none => (keep, .typeErrorNone)
      | some t0 =>
          let elapsed := now - t0
          if elapsed = 0 then (keep, .zeroDivisionError)
          else
            (keep, .emitted st.request_count st.success_count st.error_count
              avg mx mn ((st.request_count : ℚ) / elapsed))

/-- The break test at line 96, with Python truthiness: `self.max_requests`
is falsy when it is `None` and also when it is `0`, so the conjunction is
skipped in both cases and only a nonzero cap can ever stop the loop. -/
def capReached (max_requests : Option Nat) (request_count : Nat) : Bool :=
  match max_requests with
  | none => false
  | some m => (m != 0) && decide (m ≤ request_count)

/-- State transformation of one loop iteration (lines 99 to 100): increment
`request_count`, then perform `make_request`.  The conditional `print_stats`
call of the same iteration reads but never writes fields, so it does not
appear in the state transformation. -/
def loopStep (st : APITester) (t : Tick) : APITester :=
  (make_request { st with request_count := st.request_count + 1 } t).1

/-- Result of running the `while True` loop of `run` (lines 95 to 112) over a
finite stream of ticks: final state, the 1-based request numbers after which
a statistics block was printed, whether an exception escaped `print_stats`
and aborted the loop, and the ticks actually consumed. -/
structure LoopOut where
  state : APITester
  emitsAt : List Nat
  crashed : Bool
  consumed : List Tick
  deriving Repr, DecidableEq

/-- Semantics of the loop body of `run` (lines 95 to 112) over a finite tick
stream (an empty stream means the run is observed up to that point; the real
loop alone never exits except through the break at line 97 or an uncaught
exception).  Each iteration: break test (line 96), increment
`request_count` (line 99), `make_request` (line 100), and every 10 requests
a `print_stats` call (lines 109 to 110) whose uncaught exceptions abort the
loop.  `asyncio.sleep` does not change the state. -/
def runLoop : List Tick → APITester → LoopOut
  | [], st => { state := st, emitsAt := [], crashed := false, consumed := [] }
  | t :: rest, st =>
      if capReached st.max_requests st.request_count then
        { state := st, emitsAt := [], crashed := false, consumed := [] }
      else
        let st2 := loopStep st t
        if st2.request_count % 10 == 0 then
          let pr := print_stats st2 t.statNow
          if pr.2.isEmitted then
            let o := runLoop rest pr.1
            { state := o.state, emitsAt := st2.request_count :: o.emitsAt,
              crashed := o.crashed, consumed := t :: o.consumed }
          else if pr.2 = .noop then
            let o := runLoop rest pr.1
            { state := o.state, emitsAt := o.emitsAt,
              crashed := o.crashed, consumed := t :: o.consumed }
          else
            { state := pr.1, emitsAt := [], crashed := true, consumed := [t] }
        else
          let o := runLoop rest st2
          { state := o.state, emitsAt := o.emitsAt,
            crashed := o.crashed, consumed := t :: o.consumed }

/-- Semantics of `APITester.run` (lines 84 to 112): record the start
timestamp (line 92; the banner prints do not change state), then run the
loop. -/
def run (st : APITester) (t0 : ℚ) (ticks : List Tick) : LoopOut :=
  runLoop ticks { st with start_time := some t0 }

/-- Semantics of `main` (lines 115 to 132) on a run that ends by cap or by
observation cutoff: construct the tester, run it, and in the `finally`
block call `print_stats` once more, reading `time.time() = finalNow`. -/
def mainRun (url : String) (interval : ℚ) (cap : Option Nat)
    (t0 : ℚ) (ticks : List Tick) (finalNow : ℚ) : LoopOut × StatsOutcome :=
  let tester := APITester.init url interval cap
  let o := run tester t0 ticks
  (o, (print_stats o.state finalNow).2)

/-- Number of statistics blocks a `mainRun` observation emits in total:
the in-loop blocks plus the final one when it actually prints. -/
def totalBlocks (r : LoopOut × StatsOutcome) : Nat :=
  r.1.emitsAt.length + (if r.2.isEmitted then 1 else 0)

/-- Whether a tick is a 200 response whose body fails to parse as JSON, the
case in which `response.json()` raises inside the success branch. -/
def badJson200 (t : Tick) : Bool :=
  match t.outcome with
  | .response status body => status == 200 && body.parsedJson.isNone
  | .raised _ => false

/-- Number of consumed ticks that hit the 200-with-unparseable-body case. -/
def countBadJson (ts : List Tick) : Nat :=
  (ts.filter badJson200).length

/-- States of an `APITester` instance at which the program can observe the
fields: right after `__init__`; right after `run` records the start
timestamp at line 92; and after any loop iteration.  A loop iteration can
only execute after line 92 of the same `run` call, hence its hypothesis
that the start timestamp is already set. -/
inductive Reach : APITester → Prop where
  | constructed (url : String) (ival : ℚ) (cap : Option Nat) :
      Reach (APITester.init url ival cap)
  | started (st : APITester) (t0 : ℚ) : Reach st →
      Reach { st with start_time := some t0 }
  | stepped (st : APITester) (t : Tick) (t0 : ℚ) : Reach st →
      st.start_time = some t0 → Reach (loopStep st t)

/-- A 200 response carrying a JSON-parseable body, with fixed timings. -/
def tickOk : Tick :=
  { outcome := .response 200 { raw := "joke", parsedJson := some "joke" }
    elapsed := 1/2, elapsedExn := 1/2, statNow := 1 }

/-- A 200 response whose body is not parseable JSON, with fixed timings. -/
def tickBad : Tick :=
  { outcome := .response 200 { raw := "not json", parsedJson := none }
    elapsed := 1/2, elapsedExn := 3/5, statNow := 1 }

/-- A transport failure (connection refused), with fixed timings. -/
def tickRefused : Tick :=
  { outcome := .raised "Cannot connect to host"
    elapsed := 1/2, elapsedExn := 1/4, statNow := 1 }

/-- A 404 response carrying a non-JSON body, with fixed timings. -/
def tick404 : Tick :=
  { outcome := .response 404 { raw := "not found", parsedJson := none }
    elapsed := 1, elapsedExn := 1, statNow := 1 }

/-- Three well-behaved request ticks. -/
def ticksOk3 : List Tick :=
  [tickOk, tickOk, tickOk]

/-- Twenty-five well-behaved request ticks, for the cap-25 scenario. -/
def ticks25 : List Tick :=
  List.replicate 25 tickOk

/-- A freshly constructed tester right after `run` records start timestamp
0 at line 92. -/
def stStarted : APITester :=
  { APITester.init "http://x" 1 none with start_time := some 0 }

/-! ### Basic facts about `make_request` and `print_stats` -/

/-- One request never touches the request counter. -/
theorem make_request_request_count (st : APITester) (t : Tick) :
    (make_request st t).1.request_count = st.request_count := by
  rcases t with ⟨o, e1, e2, sn⟩
  rcases o with msg | ⟨status, body⟩
  · rfl
  · cases h : (status == 200)
    · simp [make_request, h]
    · rcases hb : body.parsedJson with _ | j <;> simp [make_request, h, hb]

/-- One request never touches the configured cap. -/
theorem make_request_max_requests (st : APITester) (t : Tick) :
    (make_request st t).1.max_requests = st.max_requests := by
  rcases t with ⟨o, e1, e2, sn⟩
  rcases o with msg | ⟨status, body⟩
  · rfl
  · cases h : (status == 200)
    · simp [make_request, h]
    · rcases hb : body.parsedJson with _ | j <;> simp [make_request, h, hb]

/-- One request never touches the start timestamp. -/
theorem make_request_start_time (st : APITester) (t : Tick) :
    (make_request st t).1.start_time = st.start_time := by
  rcases t with ⟨o, e1, e2, sn⟩
  rcases o with msg | ⟨status, body⟩
  · rfl
  · cases h : (status == 200)
    · simp [make_request, h]
    · rcases hb : body.parsedJson with _ | j <;> simp [make_request, h, hb]

/-- Outcome counting: a request adds 1 to `success_count + error_count`,
except in the 200-with-unparseable-body case where it adds 2 (one success
increment at line 39, one error increment at line 52). -/
theorem make_request_counts (st : APITester) (t : Tick) :
    (make_request st t).1.success_count + (make_request st t).1.error_count
      = st.success_count + st.error_count
        + (if badJson200 t then 2 else 1) := by
  rcases t with ⟨o, e1, e2, sn⟩
  rcases o with msg | ⟨status, body⟩
  · simp [make_request, badJson200]; omega
  · cases h : (status == 200)
    · simp [make_request, badJson200, h]; omega
    · rcases hb : body.parsedJson with _ | j <;>
        simp [make_request, badJson200, h, hb] <;> omega

/-- Sample counting: a request appends 1 duration sample, except in the
200-with-unparseable-body case where it appends 2 (line 35 and line 54). -/
theorem make_request_times_length (st : APITester) (t : Tick) :
    (make_request st t).1.response_times.length
      = st.response_times.length + (if badJson200 t then 2 else 1) := by
  rcases t with ⟨o, e1, e2, sn⟩
  rcases o with msg | ⟨status, body⟩
  · simp [make_request, badJson200]
  · cases h : (status == 200)
    · simp [make_request, badJson200, h]
    · rcases hb : body.parsedJson with _ | j <;>
        simp [make_request, badJson200, h, hb]

/-- After any request the sample list is nonempty. -/
theorem make_request_times_ne_nil (st : APITester) (t : Tick) :
    (make_request st t).1.response_times ≠ [] := by
  have h := make_request_times_length st t
  intro hnil
  rw [hnil] at h
  simp at h
  split at h <;> omega

/-- The method `print_stats` only reads fields: the instance it leaves
behind is the instance it was called on. -/
theorem print_stats_fst (st : APITester) (now : ℚ) :
    (print_stats st now).1 = st := by
  obtain ⟨b, i, m, rc, sc, ec, rt, stt⟩ := st
  rcases rt with _ | ⟨x, xs⟩ <;> rcases stt with _ | t0 <;>
    simp [print_stats] <;> split <;> rfl

/-- With the start timestamp set, `print_stats` cannot hit the
`time.time() - None` type error. -/
theorem print_stats_no_typeErrorNone (st : APITester) (now : ℚ)
    (h : st.start_time ≠ none) :
    (print_stats st now).2 ≠ .typeErrorNone := by
  obtain ⟨b, i, m, rc, sc, ec, rt, stt⟩ := st
  rcases rt with _ | ⟨x, xs⟩ <;> rcases stt with _ | t0 <;>
    simp [print_stats] at h ⊢ <;> split <;> simp

/-- With a nonempty sample list, the start timestamp set and a clock reading
distinct from it, `print_stats` prints a statistics block. -/
theorem print_stats_emits (st : APITester) (now t0 : ℚ)
    (hne : st.response_times ≠ []) (hst : st.start_time = some t0)
    (hnow : now ≠ t0) :
    (print_stats st now).2.isEmitted = true := by
  obtain ⟨b, i, m, rc, sc, ec, rt, stt⟩ := st
  rcases rt with _ | ⟨x, xs⟩
  · simp at hne
  · simp at hst
    subst hst
    have : now - t0 ≠ 0 := sub_ne_zero.mpr hnow
    simp [print_stats, this, StatsOutcome.isEmitted]

/-! ### Facts about the run loop -/

/-- Counting the failed-parse ticks distributes over cons. -/
theorem countBadJson_cons (t : Tick) (ts : List Tick) :
    countBadJson (t :: ts)
      = (if badJson200 t then 1 else 0) + countBadJson ts := by
  simp only [countBadJson, List.filter]
  cases h : badJson200 t <;> simp [h] <;> omega

/-- One loop iteration advances the request counter by one. -/
theorem loopStep_request_count (st : APITester) (t : Tick) :
    (loopStep st t).request_count = st.request_count + 1 := by
  simp [loopStep, make_request_request_count]

/-- One loop iteration adds 1 to `success_count + error_count`, or 2 in the
200-with-unparseable-body case. -/
theorem loopStep_counts (st : APITester) (t : Tick) :
    (loopStep st t).success_count + (loopStep st t).error_count
      = st.success_count + st.error_count
        + (if badJson200 t then 2 else 1) := by
  simpa [loopStep] using make_request_counts
    { st with request_count := st.request_count + 1 } t

/-- One loop iteration appends 1 duration sample, or 2 in the
200-with-unparseable-body case. -/
theorem loopStep_times_length (st : APITester) (t : Tick) :
    (loopStep st t).response_times.length
      = st.response_times.length + (if badJson200 t then 2 else 1) := by
  simpa [loopStep] using make_request_times_length
    { st with request_count := st.request_count + 1 } t

/-- One loop iteration never touches the configured cap. -/
theorem loopStep_max_requests (st : APITester) (t : Tick) :
    (loopStep st t).max_requests = st.max_requests := by
  simp [loopStep, make_request_max_requests]

/-- One loop iteration never touches the start timestamp. -/
theorem loopStep_start_time (st : APITester) (t : Tick) :
    (loopStep st t).start_time = st.start_time := by
  simp [loopStep, make_request_start_time]

/-- After any loop iteration the sample list is nonempty. -/
theorem loopStep_times_ne_nil (st : APITester) (t : Tick) :
    (loopStep st t).response_times ≠ [] :=
  make_request_times_ne_nil { st with request_count := st.request_count + 1 } t

/-! ### Unfolding equations for the run loop -/

/-- The loop stops before consuming anything once the break test fires. -/
theorem runLoop_cons_cap (t : Tick) (rest : List Tick) (st : APITester)
    (hcap : capReached st.max_requests st.request_count = true) :
    runLoop (t :: rest) st
      = { state := st, emitsAt := [], crashed := false, consumed := [] } := by
  simp [runLoop, hcap]

/-- An iteration whose request number is not a multiple of 10 performs the
step and recurses, with no statistics call. -/
theorem runLoop_cons_not10 (t : Tick) (rest : List Tick) (st : APITester)
    (hcap : capReached st.max_requests st.request_count = false)
    (hmod : ((loopStep st t).request_count % 10 == 0) = false) :
    runLoop (t :: rest) st
      = { state := (runLoop rest (loopStep st t)).state
          emitsAt := (runLoop rest (loopStep st t)).emitsAt
          crashed := (runLoop rest (loopStep st t)).crashed
          consumed := t :: (runLoop rest (loopStep st t)).consumed } := by
  simp [runLoop, hcap, hmod]

/-- An iteration whose request number is a multiple of 10 and whose
statistics call prints a block records the emission and recurses. -/
theorem runLoop_cons_10_emit (t : Tick) (rest : List Tick) (st : APITester)
    (hcap : capReached st.max_requests st.request_count = false)
    (hmod : ((loopStep st t).request_count % 10 == 0) = true)
    (hemit : (print_stats (loopStep st t) t.statNow).2.isEmitted = true) :
    runLoop (t :: rest) st
      = { state := (runLoop rest (loopStep st t)).state
          emitsAt := (loopStep st t).request_count
            :: (runLoop rest (loopStep st t)).emitsAt
          crashed := (runLoop rest (loopStep st t)).crashed
          consumed := t :: (runLoop rest (loopStep st t)).consumed } := by
  simp [runLoop, hcap, hmod, hemit, print_stats_fst]

/-- An iteration whose request number is a multiple of 10 and whose
statistics call hits the empty-list guard records nothing and recurses. -/
theorem runLoop_cons_10_noop (t : Tick) (rest : List Tick) (st : APITester)
    (hcap : capReached st.max_requests st.request_count = false)
    (hmod : ((loopStep st t).request_count % 10 == 0) = true)
    (hnoop : (print_stats (loopStep st t) t.statNow).2 = StatsOutcome.noop) :
    runLoop (t :: rest) st
      = { state := (runLoop rest (loopStep st t)).state
          emitsAt := (runLoop rest (loopStep st t)).emitsAt
          crashed := (runLoop rest (loopStep st t)).crashed
          consumed := t :: (runLoop rest (loopStep st t)).consumed } := by
  simp [runLoop, hcap, hmod, hnoop, print_stats_fst, StatsOutcome.isEmitted]

/-- An iteration whose statistics call raises an uncaught exception aborts
the loop with the crash flag set. -/
theorem runLoop_cons_10_crash (t : Tick) (rest : List Tick) (st : APITester)
    (hcap : capReached st.max_requests st.request_count = false)
    (hmod : ((loopStep st t).request_count % 10 == 0) = true)
    (hemit : (print_stats (loopStep st t) t.statNow).2.isEmitted = false)
    (hnoop : (print_stats (loopStep st t) t.statNow).2 ≠ StatsOutcome.noop) :
    runLoop (t :: rest) st
      = { state := loopStep st t, emitsAt := [], crashed := true,
          consumed := [t] } := by
  simp [runLoop, hcap, hmod, hemit, hnoop, print_stats_fst]

/-- Loop bookkeeping, relating the final state of any observed run segment
to the ticks it consumed: the request counter advances by one per consumed
tick; the two outcome counters together and the sample list each advance by
one per consumed tick plus one extra for every 200-with-unparseable-body
tick; the configured cap and start timestamp never change. -/
theorem runLoop_state_spec (ticks : List Tick) : ∀ st : APITester,
    (runLoop ticks st).state.request_count
        = st.request_count + (runLoop ticks st).consumed.length ∧
    (runLoop ticks st).state.success_count + (runLoop ticks st).state.error_count
        = st.success_count + st.error_count + (runLoop ticks st).consumed.length
          + countBadJson (runLoop ticks st).consumed ∧
    (runLoop ticks st).state.response_times.length
        = st.response_times.length + (runLoop ticks st).consumed.length
          + countBadJson (runLoop ticks st).consumed ∧
    (runLoop ticks st).state.max_requests = st.max_requests ∧
    (runLoop ticks st).state.start_time = st.start_time := by
  induction ticks with
  | nil =>
      intro st
      simp [runLoop, countBadJson]
  | cons t rest ih =>
      intro st
      have hrc := loopStep_request_count st t
      have hcnt := loopStep_counts st t
      have htl := loopStep_times_length st t
      have hmax := loopStep_max_requests st t
      have hstt := loopStep_start_time st t
      obtain ⟨ih1, ih2, ih3, ih4, ih5⟩ := ih (loopStep st t)
      by_cases hcap : capReached st.max_requests st.request_count = true
      · rw [runLoop_cons_cap t rest st hcap]
        simp [countBadJson]
      · rw [Bool.not_eq_true] at hcap
        have recurse :
            ∀ o : LoopOut,
            o = { state := (runLoop rest (loopStep st t)).state
                  emitsAt := o.emitsAt
                  crashed := o.crashed
                  consumed := t :: (runLoop rest (loopStep st t)).consumed } →
            o.state.request_count = st.request_count + o.consumed.length ∧
            o.state.success_count + o.state.error_count
              = st.success_count + st.error_count + o.consumed.length
                + countBadJson o.consumed ∧
            o.state.response_times.length
              = st.response_times.length + o.consumed.length
                + countBadJson o.consumed ∧
            o.state.max_requests = st.max_requests ∧
            o.state.start_time = st.start_time := by
          intro o ho
          rw [ho]
          refine ⟨?_, ?_, ?_, ?_, ?_⟩
          · simp only [ih1, hrc, List.length_cons]
            omega
          · simp only [ih2, countBadJson_cons, List.length_cons]
            rw [hcnt]
            by_cases hb : badJson200 t = true <;> simp [hb] <;> omega
          · simp only [ih3, countBadJson_cons, List.length_cons]
            rw [htl]
            by_cases hb : badJson200 t = true <;> simp [hb] <;> omega
          · rw [ih4, hmax]
          · rw [ih5, hstt]
        by_cases hmod : ((loopStep st t).request_count % 10 == 0) = true
        · by_cases hemit :
              (print_stats (loopStep st t) t.statNow).2.isEmitted = true
          · rw [runLoop_cons_10_emit t rest st hcap hmod hemit]
            exact recurse _ rfl
          · rw [Bool.not_eq_true] at hemit
            by_cases hnoop :
                (print_stats (loopStep st t) t.statNow).2 = StatsOutcome.noop
            · rw [runLoop_cons_10_noop t rest st hcap hmod hnoop]
              exact recurse _ rfl
            · rw [runLoop_cons_10_crash t rest st hcap hmod hemit hnoop]
              refine ⟨?_, ?_, ?_, ?_, ?_⟩
              · simp only [hrc, List.length_cons, List.length_nil]
              · simp only [countBadJson_cons, countBadJson, List.filter_nil,
                  List.length_nil, List.length_cons]
                rw [hcnt]
                by_cases hb : badJson200 t = true <;> simp [hb] <;> omega
              · simp only [countBadJson_cons, countBadJson, List.filter_nil,
                  List.length_nil, List.length_cons]
                rw [htl]
                by_cases hb : badJson200 t = true <;> simp [hb] <;> omega
              · exact hmax
              · exact hstt
        · rw [Bool.not_eq_true] at hmod
          rw [runLoop_cons_not10 t rest st hcap hmod]
          exact recurse _ rfl

/-- The break test with a cap present fires exactly when the cap is nonzero
and already met. -/
theorem capReached_some_iff (c rc : Nat) :
    capReached (some c) rc = true ↔ (c ≠ 0 ∧ c ≤ rc) := by
  simp [capReached]

/-- With a nonzero cap, a crash-free observed run with at least enough ticks
available stops with the request counter exactly at the cap. -/
theorem runLoop_cap_exact (c : Nat) (hc : 1 ≤ c) (ticks : List Tick) :
    ∀ st : APITester,
    st.max_requests = some c → st.request_count ≤ c →
    c - st.request_count ≤ ticks.length →
    (runLoop ticks st).crashed = false →
    (runLoop ticks st).state.request_count = c := by
  induction ticks with
  | nil =>
      intro st hm hle hlen _
      simp only [runLoop, List.length_nil] at hlen ⊢
      omega
  | cons t rest ih =>
      intro st hm hle hlen hcr
      by_cases hcap : capReached st.max_requests st.request_count = true
      · rw [runLoop_cons_cap t rest st hcap]
        rw [hm, capReached_some_iff] at hcap
        show st.request_count = c
        omega
      · rw [Bool.not_eq_true] at hcap
        have hlt : st.request_count < c := by
          by_contra hge
          rw [hm] at hcap
          have : capReached (some c) st.request_count = true :=
            (capReached_some_iff c st.request_count).mpr ⟨by omega, by omega⟩
          rw [hcap] at this
          exact Bool.false_ne_true this
        have hm2 : (loopStep st t).max_requests = some c := by
          rw [loopStep_max_requests, hm]
        have hle2 : (loopStep st t).request_count ≤ c := by
          rw [loopStep_request_count]; omega
        have hlen2 : c - (loopStep st t).request_count ≤ rest.length := by
          rw [loopStep_request_count]
          simp only [List.length_cons] at hlen
          omega
        by_cases hmod : ((loopStep st t).request_count % 10 == 0) = true
        · by_cases hemit :
              (print_stats (loopStep st t) t.statNow).2.isEmitted = true
          · rw [runLoop_cons_10_emit t rest st hcap hmod hemit] at hcr ⊢
            exact ih (loopStep st t) hm2 hle2 hlen2 hcr
          · rw [Bool.not_eq_true] at hemit
            by_cases hnoop :
                (print_stats (loopStep st t) t.statNow).2 = StatsOutcome.noop
            · rw [runLoop_cons_10_noop t rest st hcap hmod hnoop] at hcr ⊢
              exact ih (loopStep st t) hm2 hle2 hlen2 hcr
            · rw [runLoop_cons_10_crash t rest st hcap hmod hemit hnoop] at hcr
              exact absurd hcr (by simp)
        · rw [Bool.not_eq_true] at hmod
          rw [runLoop_cons_not10 t rest st hcap hmod] at hcr ⊢
          exact ih (loopStep st t) hm2 hle2 hlen2 hcr

/-- With the cap absent or zero (both falsy at line 96), a crash-free
observed run consumes every available tick: the break never fires. -/
theorem runLoop_nocap_consumed (ticks : List Tick) : ∀ st : APITester,
    (st.max_requests = none ∨ st.max_requests = some 0) →
    (runLoop ticks st).crashed = false →
    (runLoop ticks st).consumed = ticks := by
  induction ticks with
  | nil =>
      intro st _ _
      rfl
  | cons t rest ih =>
      intro st hm hcr
      have hcap : capReached st.max_requests st.request_count = false := by
        rcases hm with hm | hm <;> rw [hm] <;> rfl
      have hm2 : (loopStep st t).max_requests = none ∨
          (loopStep st t).max_requests = some 0 := by
        rw [loopStep_max_requests]; exact hm
      by_cases hmod : ((loopStep st t).request_count % 10 == 0) = true
      · by_cases hemit :
            (print_stats (loopStep st t) t.statNow).2.isEmitted = true
        · rw [runLoop_cons_10_emit t rest st hcap hmod hemit] at hcr ⊢
          simp only [List.cons.injEq, true_and]
          exact ih (loopStep st t) hm2 hcr
        · rw [Bool.not_eq_true] at hemit
          by_cases hnoop :
              (print_stats (loopStep st t) t.statNow).2 = StatsOutcome.noop
          · rw [runLoop_cons_10_noop t rest st hcap hmod hnoop] at hcr ⊢
            simp only [List.cons.injEq, true_and]
            exact ih (loopStep st t) hm2 hcr
          · rw [runLoop_cons_10_crash t rest st hcap hmod hemit hnoop] at hcr
            exact absurd hcr (by simp)
      · rw [Bool.not_eq_true] at hmod
        rw [runLoop_cons_not10 t rest st hcap hmod] at hcr ⊢
        simp only [List.cons.injEq, true_and]
        exact ih (loopStep st t) hm2 hcr

/-- When no in-loop clock reading coincides with the start timestamp, the
observed run never crashes and prints a statistics block exactly at the
request numbers divisible by 10. -/
theorem runLoop_emits_spec (t0 : ℚ) (ticks : List Tick) : ∀ st : APITester,
    st.start_time = some t0 →
    (∀ t ∈ ticks, t.statNow ≠ t0) →
    (runLoop ticks st).crashed = false ∧
    (runLoop ticks st).emitsAt
      = (List.range' (st.request_count + 1)
          (runLoop ticks st).consumed.length).filter (fun n => n % 10 == 0) := by
  induction ticks with
  | nil =>
      intro st _ _
      exact ⟨rfl, rfl⟩
  | cons t rest ih =>
      intro st hst hnow
      by_cases hcap : capReached st.max_requests st.request_count = true
      · rw [runLoop_cons_cap t rest st hcap]
        exact ⟨rfl, rfl⟩
      · rw [Bool.not_eq_true] at hcap
        have hst2 : (loopStep st t).start_time = some t0 := by
          rw [loopStep_start_time]; exact hst
        have hemit : (print_stats (loopStep st t) t.statNow).2.isEmitted
            = true :=
          print_stats_emits (loopStep st t) t.statNow t0
            (loopStep_times_ne_nil st t) hst2
            (hnow t (List.mem_cons_self t rest))
        have hnow2 : ∀ u ∈ rest, u.statNow ≠ t0 := fun u hu =>
          hnow u (List.mem_cons_of_mem t hu)
        obtain ⟨ihc, ihe⟩ := ih (loopStep st t) hst2 hnow2
        by_cases hmod : ((loopStep st t).request_count % 10 == 0) = true
        · rw [runLoop_cons_10_emit t rest st hcap hmod hemit]
          refine ⟨ihc, ?_⟩
          rw [loopStep_request_count] at hmod
          simp only [List.length_cons, loopStep_request_count, ihe,
            List.range'_succ, List.filter_cons, hmod, if_true]
        · rw [Bool.not_eq_true] at hmod
          rw [runLoop_cons_not10 t rest st hcap hmod]
          refine ⟨ihc, ?_⟩
          rw [loopStep_request_count] at hmod
          simp only [List.length_cons, loopStep_request_count, ihe,
            List.range'_succ, List.filter_cons, hmod, Bool.false_eq_true,
            if_false]

/-- With no samples recorded, `print_stats` hits the guard at line 64 and
returns at once, leaving the instance untouched and raising nothing. -/
theorem print_stats_noop (st : APITester) (now : ℚ)
    (h : st.response_times = []) :
    print_stats st now = (st, StatsOutcome.noop) := by
  obtain ⟨b, i, m, rc, sc, ec, rt, stt⟩ := st
  simp only at h
  subst h
  rfl

/-! ### Claims -/

/-- C1, counterexample: a single iteration receiving a 200 response with an
unparseable body leaves `success_count + error_count = 2` while only `N = 1`
loop iteration completed (`request_count = 1`), and records 2 duration
samples, refuting `success_count + error_count == N == len(response_times)`. -/
theorem C1_counterexample :
    (run (APITester.init "http://x" 0 none) 0 [tickBad]).state.success_count
        + (run (APITester.init "http://x" 0 none) 0 [tickBad]).state.error_count
      ≠ (run (APITester.init "http://x" 0 none) 0 [tickBad]).state.request_count
    ∧ (run (APITester.init "http://x" 0 none) 0
        [tickBad]).state.response_times.length
      ≠ (run (APITester.init "http://x" 0 none) 0 [tickBad]).state.request_count := by
  decide

/-- C1 (amended): after every observed run prefix from a fresh tester,
writing N for the number of completed iterations (= `request_count`) and B
for the number of those iterations whose response had status 200 with a body
that fails to parse, `success_count + error_count = N + B =
len(response_times)`; the claimed equality with N itself holds exactly when
B = 0. -/
theorem C1_amended_invariant (url : String) (ival : ℚ) (cap : Option Nat)
    (t0 : ℚ) (ticks : List Tick) :
    (run (APITester.init url ival cap) t0 ticks).state.success_count
        + (run (APITester.init url ival cap) t0 ticks).state.error_count
      = (run (APITester.init url ival cap) t0 ticks).consumed.length
        + countBadJson (run (APITester.init url ival cap) t0 ticks).consumed
    ∧ (run (APITester.init url ival cap) t0
        ticks).state.response_times.length
      = (run (APITester.init url ival cap) t0 ticks).consumed.length
        + countBadJson (run (APITester.init url ival cap) t0 ticks).consumed
    ∧ (run (APITester.init url ival cap) t0 ticks).state.request_count
      = (run (APITester.init url ival cap) t0 ticks).consumed.length := by
  obtain ⟨h1, h2, h3, -, -⟩ := runLoop_state_spec ticks
    { APITester.init url ival cap with start_time := some t0 }
  refine ⟨?_, ?_, ?_⟩
  · simpa [run, APITester.init] using h2
  · simpa [run, APITester.init] using h3
  · simpa [run, APITester.init] using h1

/-- C2, counterexample: a 200 response whose body fails to parse as JSON is
counted as a request error (`error_count` goes from 0 to 1) and recorded as
an error (status marker and error description in the result), refuting the
claim that it is not counted or recorded as a request error. -/
theorem C2_counterexample :
    (make_request (APITester.init "http://x" 0 none) tickBad).1.error_count = 1
    ∧ (make_request (APITester.init "http://x" 0 none) tickBad).2.status
      = ResultStatus.errorMarker := by
  decide

/-- C2 (amended): for every response with HTTP status 200 whose body fails
to parse as JSON, the success counter is incremented (before the parse
attempt) but the parse failure then lands in the broad `except` block: the
error counter is also incremented, a second duration sample is appended,
and the result is recorded as an error (marker and `str(e)` description),
not as a success with the raw body substituted. -/
theorem C2_amended_parse_failure (st : APITester) (t : Tick)
    (body : HttpBody)
    (h : t.outcome = TransportOutcome.response 200 body)
    (hb : body.parsedJson = none) :
    (make_request st t).1.success_count = st.success_count + 1
    ∧ (make_request st t).1.error_count = st.error_count + 1
    ∧ (make_request st t).1.response_times
      = st.response_times ++ [t.elapsed, t.elapsedExn]
    ∧ (make_request st t).2.status = ResultStatus.errorMarker
    ∧ (make_request st t).2.body
      = ResultBody.errorDescr (jsonDecodeError body.raw) := by
  rcases t with ⟨o, e1, e2, sn⟩
  simp only at h
  subst h
  simp [make_request, hb]

/-- C2, witness: the amended statement evaluated on a concrete tester and a
concrete 200-with-unparseable-body response. -/
theorem C2_witness :
    tickBad.outcome = TransportOutcome.response 200
        { raw := "not json", parsedJson := none }
    ∧ (HttpBody.parsedJson { raw := "not json", parsedJson := none }
        = (none : Option String))
    ∧ ((make_request (APITester.init "http://x" 0 none) tickBad).1.success_count
        = (APITester.init "http://x" 0 none).success_count + 1
      ∧ (make_request (APITester.init "http://x" 0 none) tickBad).1.error_count
        = (APITester.init "http://x" 0 none).error_count + 1
      ∧ (make_request (APITester.init "http://x" 0 none) tickBad).1.response_times
        = (APITester.init "http://x" 0 none).response_times
            ++ [tickBad.elapsed, tickBad.elapsedExn]
      ∧ (make_request (APITester.init "http://x" 0 none) tickBad).2.status
        = ResultStatus.errorMarker
      ∧ (make_request (APITester.init "http://x" 0 none) tickBad).2.body
        = ResultBody.errorDescr
            (jsonDecodeError (HttpBody.raw { raw := "not json", parsedJson := none }))) :=
  ⟨rfl, rfl,
    C2_amended_parse_failure (APITester.init "http://x" 0 none) tickBad
      { raw := "not json", parsedJson := none } rfl rfl⟩

/-- C3, counterexample: with cap 0 the loop body is not skipped — three
available ticks are all consumed and three requests issued, because `if
self.max_requests and ...` is falsy for 0 and the break never fires,
refuting the claim that with cap 0 the loop body executes zero times. -/
theorem C3_counterexample :
    (run (APITester.init "http://x" 0 (some 0)) 0 ticksOk3).state.request_count
      = 3
    ∧ (run (APITester.init "http://x" 0 (some 0)) 0 ticksOk3).consumed ≠ [] := by
  decide

/-- C3 (amended): the break test at line 96 fires only when the cap is a
nonzero number already met, so the loop body executes while the cap is
`None`, or `0` (Python falsy), or requests issued < cap.  Hence for a cap
c >= 1, a crash-free run with at least c ticks available issues exactly c
requests; a cap of 0 is treated as no cap at all: the break test never
fires and a crash-free run consumes every available tick. -/
theorem C3_amended_cap_semantics (url : String) (ival t0 : ℚ) (c : Nat)
    (ticks : List Tick) :
    (1 ≤ c → c ≤ ticks.length →
      (run (APITester.init url ival (some c)) t0 ticks).crashed = false →
      (run (APITester.init url ival (some c)) t0 ticks).state.request_count
        = c)
    ∧ (∀ n : Nat, capReached (some 0) n = false)
    ∧ ((run (APITester.init url ival (some 0)) t0 ticks).crashed = false →
      (run (APITester.init url ival (some 0)) t0 ticks).consumed = ticks) := by
  refine ⟨?_, fun n => rfl, ?_⟩
  · intro hc hlen hcr
    exact runLoop_cap_exact c hc ticks
      { APITester.init url ival (some c) with start_time := some t0 }
      rfl (by simp [APITester.init]) (by simp [APITester.init]; omega) hcr
  · intro hcr
    exact runLoop_nocap_consumed ticks
      { APITester.init url ival (some 0) with start_time := some t0 }
      (Or.inr rfl) hcr

/-- C3, witness: the amended statement evaluated concretely — a cap of 2
with three good ticks issues exactly 2 requests, and a cap of 0 with the
same ticks consumes all three. -/
theorem C3_witness :
    1 ≤ 2 ∧ 2 ≤ ticksOk3.length
    ∧ (run (APITester.init "http://x" 0 (some 2)) 0 ticksOk3).crashed = false
    ∧ (run (APITester.init "http://x" 0 (some 2)) 0 ticksOk3).state.request_count
      = 2
    ∧ (run (APITester.init "http://x" 0 (some 0)) 0 ticksOk3).crashed = false
    ∧ (run (APITester.init "http://x" 0 (some 0)) 0 ticksOk3).consumed
      = ticksOk3 := by
  have h := C3_amended_cap_semantics "http://x" 0 0 2 ticksOk3
  have h0 := C3_amended_cap_semantics "http://x" 0 0 0 ticksOk3
  exact ⟨by decide, by decide, by decide,
    h.1 (by decide) (by decide) (by decide), by decide,
    h0.2.2 (by decide)⟩

/-- C4 (code bug): when `print_stats` runs at a wall-clock instant equal to
the start timestamp (elapsed exactly zero, possible since consecutive
`time.time()` readings can coincide), the unguarded division at line 72
raises `ZeroDivisionError` — here evaluated on the state reached after one
successful request of a cap-1 run started at time 5, with the statistics
call reading `time.time() = 5`.  The claim that the throughput computation
never crashes is the spec's stated intent; the code lacks the guard. -/
theorem C4_zero_elapsed_crash :
    (print_stats
        (run (APITester.init "http://x" 1 (some 1)) 5 [tickOk]).state 5).2
      = StatsOutcome.zeroDivisionError := by
  have h : (run (APITester.init "http://x" 1 (some 1)) 5 [tickOk]).state
      = { base_url := "http://x", interval := 1, max_requests := some 1,
          request_count := 1, success_count := 1, error_count := 0,
          response_times := [tickOk.elapsed], start_time := some 5 } := rfl
  rw [h]
  simp [print_stats, sub_self]

/-- C5: with zero duration samples recorded, `print_stats` is a no-op: it
returns at the guard, computing nothing, emitting nothing, raising nothing,
and leaving the instance unchanged. -/
theorem C5_empty_guard (st : APITester) (now : ℚ)
    (h : st.response_times = []) :
    print_stats st now = (st, StatsOutcome.noop) :=
  print_stats_noop st now h

/-- C5, witness: the no-op guard evaluated on a freshly constructed tester. -/
theorem C5_witness :
    (APITester.init "http://x" 1 none).response_times = ([] : List ℚ)
    ∧ print_stats (APITester.init "http://x" 1 none) 7
      = (APITester.init "http://x" 1 none, StatsOutcome.noop) :=
  ⟨rfl, C5_empty_guard (APITester.init "http://x" 1 none) 7 rfl⟩

/-- C6: classification is decided by the status alone — a 200 response with
a JSON-parseable body always increments the success counter and returns the
parsed body in the result; any non-200 response always increments the error
counter and returns the raw text body, regardless of body content. -/
theorem C6_status_classification (st : APITester) (t : Tick) (status : Nat)
    (body : HttpBody)
    (h : t.outcome = TransportOutcome.response status body) :
    (∀ j : String, body.parsedJson = some j → status = 200 →
      (make_request st t).1.success_count = st.success_count + 1
      ∧ (make_request st t).1.error_count = st.error_count
      ∧ (make_request st t).2
        = { status := ResultStatus.code 200, elapsed := t.elapsed,
            body := ResultBody.parsed j })
    ∧ (status ≠ 200 →
      (make_request st t).1.error_count = st.error_count + 1
      ∧ (make_request st t).1.success_count = st.success_count
      ∧ (make_request st t).2
        = { status := ResultStatus.code status, elapsed := t.elapsed,
            body := ResultBody.rawText body.raw }) := by
  rcases t with ⟨o, e1, e2, sn⟩
  simp only at h
  subst h
  constructor
  · intro j hj h200
    subst h200
    simp [make_request, hj]
  · intro hne
    have hb : (status == 200) = false := by simp [hne]
    simp [make_request, hb]

/-- C6, witness: the classification evaluated on a concrete 200 response
with a JSON body and on a concrete 404 response. -/
theorem C6_witness :
    tickOk.outcome = TransportOutcome.response 200
        { raw := "joke", parsedJson := some "joke" }
    ∧ tick404.outcome = TransportOutcome.response 404
        { raw := "not found", parsedJson := none }
    ∧ ((make_request (APITester.init "u" 1 none) tickOk).1.success_count
        = (APITester.init "u" 1 none).success_count + 1
      ∧ (make_request (APITester.init "u" 1 none) tickOk).1.error_count
        = (APITester.init "u" 1 none).error_count
      ∧ (make_request (APITester.init "u" 1 none) tickOk).2
        = { status := ResultStatus.code 200, elapsed := tickOk.elapsed,
            body := ResultBody.parsed "joke" })
    ∧ ((make_request (APITester.init "u" 1 none) tick404).1.error_count
        = (APITester.init "u" 1 none).error_count + 1
      ∧ (make_request (APITester.init "u" 1 none) tick404).1.success_count
        = (APITester.init "u" 1 none).success_count
      ∧ (make_request (APITester.init "u" 1 none) tick404).2
        = { status := ResultStatus.code 404, elapsed := tick404.elapsed,
            body := ResultBody.rawText "not found" }) :=
  ⟨rfl, rfl,
    (C6_status_classification (APITester.init "u" 1 none) tickOk 200
      { raw := "joke", parsedJson := some "joke" } rfl).1 "joke" rfl rfl,
    (C6_status_classification (APITester.init "u" 1 none) tick404 404
      { raw := "not found", parsedJson := none } rfl).2 (by decide)⟩

/-- C7: a transport-level failure (the GET raises before any response is
classified) increments the error counter by exactly one, leaves the success
counter alone, appends exactly one duration sample (the time measured up to
the failure), returns a result carrying the error marker and the
human-readable description `str(e)`, and does not abort the loop: the
iteration consuming the failing tick completes and is recorded. -/
theorem C7_transport_failure (st : APITester) (t : Tick) (msg : String)
    (h : t.outcome = TransportOutcome.raised msg) :
    (make_request st t).1.error_count = st.error_count + 1
    ∧ (make_request st t).1.success_count = st.success_count
    ∧ (make_request st t).1.response_times
      = st.response_times ++ [t.elapsedExn]
    ∧ (make_request st t).2
      = { status := ResultStatus.errorMarker, elapsed := t.elapsedExn,
          body := ResultBody.errorDescr msg }
    ∧ (∀ rest : List Tick,
        capReached st.max_requests st.request_count = false →
        (runLoop (t :: rest) st).consumed.head? = some t) := by
  rcases t with ⟨o, e1, e2, sn⟩
  simp only at h
  subst h
  refine ⟨by simp [make_request], by simp [make_request],
    by simp [make_request], by simp [make_request], ?_⟩
  intro rest hcap
  set t : Tick := ⟨TransportOutcome.raised msg, e1, e2, sn⟩ with ht
  by_cases hmod : ((loopStep st t).request_count % 10 == 0) = true
  · by_cases hemit : (print_stats (loopStep st t) t.statNow).2.isEmitted = true
    · rw [runLoop_cons_10_emit t rest st hcap hmod hemit]
      rfl
    · rw [Bool.not_eq_true] at hemit
      by_cases hnoop :
          (print_stats (loopStep st t) t.statNow).2 = StatsOutcome.noop
      · rw [runLoop_cons_10_noop t rest st hcap hmod hnoop]
        rfl
      · rw [runLoop_cons_10_crash t rest st hcap hmod hemit hnoop]
        rfl
  · rw [Bool.not_eq_true] at hmod
    rw [runLoop_cons_not10 t rest st hcap hmod]
    rfl

/-- C7, witness: the transport-failure bookkeeping evaluated on a concrete
connection failure against a cap-1 tester. -/
theorem C7_witness :
    tickRefused.outcome = TransportOutcome.raised "Cannot connect to host"
    ∧ (make_request (APITester.init "http://x" 1 (some 1))
        tickRefused).1.error_count = 1
    ∧ (make_request (APITester.init "http://x" 1 (some 1))
        tickRefused).1.success_count = 0
    ∧ (make_request (APITester.init "http://x" 1 (some 1))
        tickRefused).1.response_times = [] ++ [tickRefused.elapsedExn]
    ∧ (make_request (APITester.init "http://x" 1 (some 1)) tickRefused).2
      = { status := ResultStatus.errorMarker,
          elapsed := tickRefused.elapsedExn,
          body := ResultBody.errorDescr "Cannot connect to host" }
    ∧ (runLoop [tickRefused]
        (APITester.init "http://x" 1 (some 1))).consumed.head?
      = some tickRefused := by
  have h := C7_transport_failure (APITester.init "http://x" 1 (some 1))
    tickRefused "Cannot connect to host" rfl
  exact ⟨rfl, h.1, h.2.1, h.2.2.1, h.2.2.2.1, h.2.2.2.2 [] rfl⟩

/-- Statistics cadence for a run from any freshly started state: with no
in-loop clock reading equal to the start timestamp, the run does not crash,
the in-loop blocks appear exactly at the request numbers divisible by 10,
and the final `print_stats` call emits a block whenever at least one
request was issued. -/
theorem run_cadence_aux (ticks : List Tick) (st0 : APITester)
    (t0 finalNow : ℚ) (h0 : st0.request_count = 0)
    (hT : st0.response_times = []) (hS : st0.start_time = some t0)
    (hnow : ∀ t ∈ ticks, t.statNow ≠ t0) (hfin : finalNow ≠ t0) :
    (runLoop ticks st0).crashed = false
    ∧ (runLoop ticks st0).emitsAt
      = (List.range' 1 (runLoop ticks st0).state.request_count).filter
          (fun n => n % 10 == 0)
    ∧ ((runLoop ticks st0).consumed ≠ [] →
      (print_stats (runLoop ticks st0).state finalNow).2.isEmitted = true) := by
  obtain ⟨hs1, hs2, hs3, hs4, hs5⟩ := runLoop_state_spec ticks st0
  obtain ⟨hc, he⟩ := runLoop_emits_spec t0 ticks st0 hS hnow
  refine ⟨hc, ?_, ?_⟩
  · rw [he, hs1, h0]
    norm_num
  · intro hne
    have hlp : 0 < (runLoop ticks st0).consumed.length :=
      List.length_pos.mpr hne
    refine print_stats_emits _ finalNow t0 ?_ (by rw [hs5, hS]) hfin
    intro hnil
    rw [hnil, hT] at hs3
    simp at hs3
    omega

/-- C8: provided no statistics call reads a clock value equal to the start
timestamp (so none of them raises), a run from a fresh tester emits the
in-loop statistics block exactly at the request numbers that are multiples
of 10, the `finally` block of `main` prints exactly one more block whenever
at least one request was issued, and in particular a cap-25 run with at
least 25 ticks available prints blocks after requests 10 and 20 plus the
final one: 3 statistics blocks in total. -/
theorem C8_stats_cadence (url : String) (ival : ℚ) (cap : Option Nat)
    (t0 finalNow : ℚ) (ticks : List Tick)
    (hnow : ∀ t ∈ ticks, t.statNow ≠ t0) (hfin : finalNow ≠ t0) :
    (mainRun url ival cap t0 ticks finalNow).1.emitsAt
      = (List.range' 1
          (mainRun url ival cap t0 ticks
            finalNow).1.state.request_count).filter (fun n => n % 10 == 0)
    ∧ ((mainRun url ival cap t0 ticks finalNow).1.consumed ≠ [] →
      (mainRun url ival cap t0 ticks finalNow).2.isEmitted = true)
    ∧ (cap = some 25 → 25 ≤ ticks.length →
      totalBlocks (mainRun url ival cap t0 ticks finalNow) = 3) := by
  obtain ⟨hacr, ha1, ha2⟩ := run_cadence_aux ticks
    { APITester.init url ival cap with start_time := some t0 } t0 finalNow
    rfl rfl rfl hnow hfin
  refine ⟨ha1, ha2, ?_⟩
  intro hcap hlen
  subst hcap
  have hrc : (runLoop ticks
      { APITester.init url ival (some 25) with
          start_time := some t0 }).state.request_count = 25 :=
    runLoop_cap_exact 25 (by norm_num) ticks
      { APITester.init url ival (some 25) with start_time := some t0 }
      rfl (Nat.zero_le 25) (by omega) hacr
  have hne : (runLoop ticks
      { APITester.init url ival (some 25) with
          start_time := some t0 }).consumed ≠ [] := by
    obtain ⟨hs1, -, -, -, -⟩ := runLoop_state_spec ticks
      { APITester.init url ival (some 25) with start_time := some t0 }
    intro hnil
    rw [hnil] at hs1
    have h00 : ({ APITester.init url ival (some 25) with
        start_time := some t0 } : APITester).request_count = 0 := rfl
    rw [h00] at hs1
    rw [hs1] at hrc
    simp at hrc
  have hemitTrue := ha2 hne
  show (runLoop ticks
      { APITester.init url ival (some 25) with
          start_time := some t0 }).emitsAt.length
    + (if (print_stats
        (runLoop ticks
          { APITester.init url ival (some 25) with
              start_time := some t0 }).state finalNow).2.isEmitted
      then 1 else 0) = 3
  rw [ha1, hrc, hemitTrue]
  rfl

/-- C8, witness: the cadence theorem evaluated on a concrete cap-25 run
started at time 0, every in-loop statistics read at time 1 and the final
one at time 2. -/
theorem C8_witness :
    (∀ t ∈ ticks25, t.statNow ≠ (0 : ℚ)) ∧ ((2 : ℚ) ≠ 0)
    ∧ (some 25 = some 25 ∧ 25 ≤ ticks25.length)
    ∧ totalBlocks (mainRun "http://x" 1 (some 25) 0 ticks25 2) = 3 := by
  have h1 : ∀ t ∈ ticks25, t.statNow ≠ (0 : ℚ) := by
    intro t ht
    simp only [ticks25] at ht
    rw [List.eq_of_mem_replicate ht]
    norm_num [tickOk]
  have h2 : (2 : ℚ) ≠ 0 := by norm_num
  have h3 : 25 ≤ ticks25.length := by simp [ticks25]
  exact ⟨h1, h2, ⟨rfl, h3⟩,
    (C8_stats_cadence "http://x" 1 (some 25) 0 2 ticks25 h1 h2).2.2 rfl h3⟩

/-- C9: `print_stats` only reads the instance: every field — the request,
success and error counters, the duration-sample list, the start timestamp
and the configuration — is exactly as before the call, so statistics are
cumulative across the whole run and never reset per interval. -/
theorem C9_print_stats_frame (st : APITester) (now : ℚ) :
    (print_stats st now).1 = st :=
  print_stats_fst st now

/-- C10: in every state the program can reach — after construction, after
`run` records the start timestamp, or after any loop iteration — a nonempty
duration-sample list implies the start timestamp is set; consequently
`print_stats`, whose empty-samples guard runs first, never reaches the
`time.time() - None` arithmetic on an uninitialized start timestamp, even
when invoked at shutdown before any request was made. -/
theorem C10_start_time_always_set (st : APITester) (h : Reach st) :
    (st.response_times ≠ [] → st.start_time ≠ none)
    ∧ (∀ now : ℚ, (print_stats st now).2 ≠ StatsOutcome.typeErrorNone) := by
  have key : st.response_times ≠ [] → st.start_time ≠ none := by
    induction h with
    | constructed url ival cap =>
        intro hne
        exact absurd rfl hne
    | started st' t0 hr ih =>
        intro _
        simp
    | stepped st' t t0 hr hstart ih =>
        intro _
        rw [loopStep_start_time, hstart]
        simp
  refine ⟨key, ?_⟩
  intro now
  by_cases hne : st.response_times = []
  · rw [print_stats_noop st now hne]
    simp
  · exact print_stats_no_typeErrorNone st now (key hne)

/-- C10, witness: the reachable state after one loop iteration of a run
started at time 0 on a fresh tester has its start timestamp set, and its
statistics call never hits the `None` arithmetic. -/
theorem C10_witness :
    (loopStep stStarted tickOk).start_time ≠ none
    ∧ (print_stats (loopStep stStarted tickOk) 3).2
      ≠ StatsOutcome.typeErrorNone := by
  have h := C10_start_time_always_set (loopStep stStarted tickOk)
    (Reach.stepped stStarted tickOk 0
      (Reach.started (APITester.init "http://x" 1 none) 0
        (Reach.constructed "http://x" 1 none)) rfl)
  exact ⟨h.1 (loopStep_times_ne_nil stStarted tickOk), h.2 3⟩
